import Mathlib

/-!
Shallow embedding of the fare-dashboard core (`assets/app.js`) of the
ivo-flighttracker repository: the filter engine (`runAnalysis`'s filter
chain), the aggregation helpers (`groupBy`, `avg`), the series builders
(`buildBuyTimingChart`, `buildCalendarChart`) and the table builders
(`buildAirlineTable`, `buildItineraryTable`), together with the data
loader's error handling (`loadData`).

Modelling conventions:
- Calendar dates are modelled as integers under the usual order (the code
  parses date strings to `Date` objects and compares / subtracts their
  numeric timestamps; only the total order matters here).
- JavaScript numbers are modelled as rationals (`ℚ`); `Math.round` is
  round-half-up, i.e. `⌊x + 1/2⌋`.
- A JavaScript object used as a dictionary is modelled as an association
  list in key-insertion order; `groupBy` therefore lists its groups in
  order of first occurrence of each key, and each group holds exactly the
  input records with that key, in input order.
- JavaScript's `Array.prototype.sort` is a stable sort (ES2019); it is
  modelled by `List.insertionSort`, which is stable for the comparator
  relations used here.
-/

/-- One fare-quote record of `data/sample_data.json` (`FareRecord`).
`airline` is optional in the data; `none` models an absent field. -/
structure FareRecord where
  origin : String
  destination_iata : String
  airline : Option String
  outbound_date : Int
  return_date : Int
  trip_length_days : Int
  days_before_departure : Int
  stops : Int
  max_layover_hours : ℚ
  price_eur : ℚ
deriving DecidableEq, Repr

/-- The fixed end-of-season window boundary `new Date('2026-08-26')` of
`runAnalysis`, as an integer date code. -/
def endWindow : Int := 20260826

/-- The user-selected filter criteria read from the form by `runAnalysis`.
`exclude` is the already lower-cased, trimmed, nonempty airline substrings. -/
structure FilterCriteria where
  dest : String
  useAMS : Bool
  useEIN : Bool
  start : Int
  tripLength : Int
  maxStops : Int
  maxLayover : ℚ
  exclude : List String
deriving DecidableEq, Repr

/-- First filter of `runAnalysis`: `r.destination_iata === dest`. -/
def destPass (c : FilterCriteria) (r : FareRecord) : Bool :=
  r.destination_iata == c.dest

/-- Second filter: `(useAMS && r.origin==='AMS') || (useEIN && r.origin==='EIN')`. -/
def originPass (c : FilterCriteria) (r : FareRecord) : Bool :=
  (c.useAMS && r.origin == "AMS") || (c.useEIN && r.origin == "EIN")

/-- Third filter: the outbound date lies in `[start, endWindow]` and the trip
length differs from the desired one by at most 2. -/
def dateTripPass (c : FilterCriteria) (r : FareRecord) : Bool :=
  if r.outbound_date < c.start || endWindow < r.outbound_date then false
  else (r.trip_length_days - c.tripLength).natAbs ≤ 2

/-- Fourth filter: `(maxStops===3 ? true : r.stops<=maxStops) && r.max_layover_hours <= maxLayover`. -/
def stopsLayoverPass (c : FilterCriteria) (r : FareRecord) : Bool :=
  (if c.maxStops == 3 then true else r.stops ≤ c.maxStops) && r.max_layover_hours ≤ c.maxLayover

/-- Final (conditional) filter: the record's airline, lower-cased with absent
airline read as the empty string, is not in the excluded set. -/
def excludePass (c : FilterCriteria) (r : FareRecord) : Bool :=
  !(c.exclude.contains (r.airline.getD "").toLower)

/-- The filter chain of `runAnalysis` (lines 51-59 of `assets/app.js`):
destination, origin, date window and trip length, stops and layover, and,
only when the exclusion list is nonempty, the airline-exclusion filter. -/
def applyFilter (c : FilterCriteria) (raw : List FareRecord) : List FareRecord :=
  let rows := raw.filter (destPass c)
  let rows := rows.filter (originPass c)
  let rows := rows.filter (dateTripPass c)
  let rows := rows.filter (stopsLayoverPass c)
  if c.exclude.length ≠ 0 then rows.filter (excludePass c) else rows

/-- The conjunction of all per-record predicates of the filter chain. -/
def passes (c : FilterCriteria) (r : FareRecord) : Bool :=
  destPass c r && originPass c r && dateTripPass c r && stopsLayoverPass c r && excludePass c r

/-- The averaging helper `avg` of `assets/app.js`:
`a.length ? a.reduce((x,y)=>x+y,0)/a.length : 0`. -/
def avg (a : List ℚ) : ℚ :=
  if a.length ≠ 0 then a.foldl (· + ·) 0 / a.length else 0

/-- `Math.round` on rationals: round half towards positive infinity. -/
def jsRound (x : ℚ) : Int := ⌊x + 1 / 2⌋

/-- Key list of a JavaScript object built by successive insertions: each key
in order of its first occurrence. -/
def firstDedup {κ : Type} [DecidableEq κ] : List κ → List κ
  | [] => []
  | a :: l => a :: (firstDedup l).filter (fun b => b ≠ a)

/-- The `groupBy` helper of `assets/app.js`: builds an object mapping each key
to the array of records carrying it. Modelled as the association list whose
keys appear in first-occurrence order and whose group for key `k` is exactly
the sublist of records with key `k`, in input order. -/
def groupBy {α κ : Type} [DecidableEq κ] (key : α → κ) (l : List α) : List (κ × List α) :=
  (firstDedup (l.map key)).map (fun k => (k, l.filter (fun a => key a = k)))

/-- Stable ascending sort by a key, modelling JavaScript's stable
`Array.prototype.sort` with comparator `(a,b) => f(a) - f(b)`. -/
def sortByKey {α β : Type} [LinearOrder β] (f : α → β) (l : List α) : List α :=
  List.insertionSort (fun a b => f a ≤ f b) l

/-- Combine a candidate with the minimum of the rest of a list: keep the
earlier candidate on ties. -/
def minTie {α β : Type} [LinearOrder β] (f : α → β) (a : α) : Option α → α
  | none => a
  | some b => if f a ≤ f b then a else b

/-- The record selected from a group by sorting ascending by key with a stable
sort and taking the first element: the earliest record attaining the minimum
key (ties broken by first occurrence in input order). -/
def firstMinBy {α β : Type} [LinearOrder β] (f : α → β) : List α → Option α
  | [] => none
  | a :: l => some (minTie f a (firstMinBy f l))

/-- The buy-timing series of `buildBuyTimingChart` (lines 75-78): labels are
the distinct `days_before_departure` keys sorted ascending numerically, the
values the per-label rounded average price. (The explicit numeric sort makes
the enumeration order of the object's keys immaterial.) -/
def buildBuyTiming (rows : List FareRecord) : List Int × List Int :=
  let byDays := groupBy (fun r => r.days_before_departure) rows
  let labels := sortByKey (fun d => d) (byDays.map Prod.fst)
  let prices := labels.map (fun d =>
    jsRound (avg ((((byDays.lookup d).getD []).map (fun x => x.price_eur)))))
  (labels, prices)

/-- One rendered row of the airline summary table. The `stops` and `layover`
columns are displayed via `toFixed(1)` (string formatting, presentation only);
the numeric averages are kept here. -/
structure AirlineRow where
  airline : String
  price : Int
  stops : ℚ
  layover : ℚ
deriving DecidableEq, Repr

/-- The object key a record contributes to when grouped by `airline`: an
absent field becomes the JavaScript key string `"undefined"`; an empty-string
airline keeps its own (empty-string) key. -/
def airlineKey (r : FareRecord) : String := r.airline.getD "undefined"

/-- The airline summary table of `buildAirlineTable` (lines 84-88): one item
per airline group with rounded average price and average stops/layover, the
items sorted ascending by the (rounded) `price` field with JavaScript's
stable sort. -/
def buildAirlineTable (rows : List FareRecord) : List AirlineRow :=
  let groups := groupBy airlineKey rows
  let items := groups.map (fun g =>
    { airline := g.1
      price := jsRound (avg (g.2.map (fun x => x.price_eur)))
      stops := avg (g.2.map (fun x => (x.stops : ℚ)))
      layover := avg (g.2.map (fun x => x.max_layover_hours)) : AirlineRow })
  sortByKey (fun it => it.price) items

/-- The itinerary table of `buildItineraryTable` (lines 91-95): group by
outbound date, in each group stable-sort ascending by price and take the
first element, then sort the selected rows ascending by outbound date. -/
def buildItineraryTable (rows : List FareRecord) : List FareRecord :=
  let byDate := groupBy (fun r => r.outbound_date) rows
  let best := byDate.filterMap (fun g => (sortByKey (fun r => r.price_eur) g.2).head?)
  sortByKey (fun r => r.outbound_date) best

/-- The per-month week buckets of `data/monthly_lowest.json`: an ordered
sequence of nullable prices (the `{price, currency}` entries reduced to their
charted price; `none` is a `null` bucket). -/
abbrev WeekBuckets := List (Option ℚ)

/-- One year's data for a route: two-digit month key to week buckets. -/
abbrev YearData := List (String × WeekBuckets)

/-- One route's data: year key to year data. -/
abbrev RouteYears := List (String × YearData)

/-- The `MonthlyLowest` structure: route key (`"ORIGIN-DEST"`) to years. -/
abbrev MonthlyLowest := List (String × RouteYears)

/-- The twelve month display names of `buildCalendarChart`. -/
def monthNames : List String :=
  ["Jan", "Feb", "Mrt", "Apr", "Mei", "Jun", "Jul", "Aug", "Sep", "Okt", "Nov", "Dec"]

/-- The 48 calendar labels `months.flatMap(m => [m+"‑W1", …, m+"‑W4"])`. -/
def calLabels : List String :=
  monthNames.flatMap (fun m => [m ++ "‑W1", m ++ "‑W2", m ++ "‑W3", m ++ "‑W4"])

/-- `String(i+1).padStart(2,'0')`: the two-digit month key for index `i`. -/
def mm (i : Nat) : String :=
  if i + 1 < 10 then "0" ++ toString (i + 1) else toString (i + 1)

/-- The month access `all?.[key]?.[y]?.[mm i]` of `getSeries`. -/
def monthLookup (all : MonthlyLowest) (key y : String) (i : Nat) : Option WeekBuckets :=
  ((all.lookup key).bind (fun ry => ry.lookup y)).bind (fun yd => yd.lookup (mm i))

/-- `getSeries` of `buildCalendarChart` (line 107): for each of the 12 month
indices, the stored week buckets, or the 4-element all-null placeholder when
the month is absent, concatenated in month order. -/
def getSeries (all : MonthlyLowest) (key y : String) : List (Option ℚ) :=
  (List.range 12).flatMap (fun i => (monthLookup all key y i).getD [none, none, none, none])

/-- The current and prior reference years of `buildCalendarChart`. -/
def nowY : String := "2026"

/-- The fixed prior reference year. -/
def prevY : String := "2025"

/-- The datasets of `buildCalendarChart` (lines 107-114), each as a label
paired with its value series: the current-year series always, and the
prior-year series exactly when `all?.[key]?.[prevY]` is present (truthy). -/
def calendarDatasets (all : MonthlyLowest) (origin dest : String) :
    List (String × List (Option ℚ)) :=
  let key := origin ++ "-" ++ dest
  let sNow := getSeries all key nowY
  let sPrev : Option (List (Option ℚ)) :=
    match (all.lookup key).bind (fun ry => ry.lookup prevY) with
    | some _ => some (getSeries all key prevY)
    | none => none
  match sPrev with
  | some s => [(key ++ " – " ++ nowY, sNow), (key ++ " – " ++ prevY, s)]
  | none => [(key ++ " – " ++ nowY, sNow)]

/-- The origin passed to `buildCalendarChart` by `runAnalysis` (line 66):
`useAMS.checked ? 'AMS' : (useEIN.checked ? 'EIN' : 'AMS')`. -/
def calendarOriginChoice (useAMS useEIN : Bool) : String :=
  if useAMS then "AMS" else if useEIN then "EIN" else "AMS"

/-- The invariant of the `MonthlyLowest` data model: every stored month holds
exactly 4 week buckets. -/
def validMonthly (all : MonthlyLowest) : Prop :=
  ∀ route ∈ all, ∀ yd ∈ route.2, ∀ me ∈ yd.2, me.2.length = 4

instance : DecidablePred validMonthly := fun all => by
  unfold validMonthly
  infer_instance

/-- The possible outcomes of `fetch('data/sample_data.json')` followed by
`res.json()`: a rejected fetch (network error), or a response with an HTTP
status and a body that either parses as a record list or fails to parse. -/
inductive FetchOutcome where
  | networkError : FetchOutcome
  | response (status : Nat) (body : Option (List FareRecord)) : FetchOutcome
deriving DecidableEq, Repr

/-- `loadData` of `assets/app.js` (lines 21-27), reduced to the value stored
in `state.raw`: a network error rejects `fetch` and is caught (`state.raw =
[]`); an unparseable body rejects `res.json()` and is caught likewise; any
parseable body is stored as-is — the HTTP status is never inspected. -/
def loadData : FetchOutcome → List FareRecord
  | FetchOutcome.networkError => []
  | FetchOutcome.response _ none => []
  | FetchOutcome.response _ (some v) => v

/-- A sample fare record used by the concrete witnesses. -/
def sampleRec : FareRecord where
  origin := "AMS"
  destination_iata := "LIS"
  airline := some "TAP"
  outbound_date := 20260720
  return_date := 20260810
  trip_length_days := 21
  days_before_departure := 30
  stops := 0
  max_layover_hours := 0
  price_eur := 120

/-- A second sample record: same outbound date as `sampleRec`, lower price. -/
def cheaperRec : FareRecord where
  origin := "AMS"
  destination_iata := "LIS"
  airline := some "KLM"
  outbound_date := 20260720
  return_date := 20260809
  trip_length_days := 20
  days_before_departure := 14
  stops := 1
  max_layover_hours := 3
  price_eur := 95

/-- A record whose airline group has average price 12/5 (rounds to 2). -/
def recAvgHigh : FareRecord where
  origin := "AMS"
  destination_iata := "LIS"
  airline := some "Beta Air"
  outbound_date := 20260721
  return_date := 20260811
  trip_length_days := 21
  days_before_departure := 30
  stops := 0
  max_layover_hours := 0
  price_eur := 12 / 5

/-- A record whose airline group has average price 8/5 (also rounds to 2). -/
def recAvgLow : FareRecord where
  origin := "AMS"
  destination_iata := "LIS"
  airline := some "Alpha Air"
  outbound_date := 20260722
  return_date := 20260812
  trip_length_days := 21
  days_before_departure := 30
  stops := 0
  max_layover_hours := 0
  price_eur := 8 / 5

/-- Sample criteria with AMS selected. -/
def mainCrit : FilterCriteria where
  dest := "LIS"
  useAMS := true
  useEIN := false
  start := 20260701
  tripLength := 21
  maxStops := 3
  maxLayover := 24
  exclude := []

/-- Sample criteria with both origin checkboxes deselected. -/
def noOriginCrit : FilterCriteria where
  dest := "LIS"
  useAMS := false
  useEIN := false
  start := 20260701
  tripLength := 21
  maxStops := 3
  maxLayover := 24
  exclude := []

/-- A MonthlyLowest sample whose route exists only under the current year. -/
def sampleMonthly : MonthlyLowest :=
  [("AMS-LIS", [("2026", [("07", [some 120, none, some 95, none])])])]

/-- A MonthlyLowest sample carrying both the current and the prior year. -/
def sampleMonthlyBoth : MonthlyLowest :=
  [("AMS-LIS",
    [("2026", [("07", [some 120, none, some 95, none])]),
     ("2025", [("07", [some 100, none, none, none])])])]

theorem excludePass_of_empty (c : FilterCriteria) (h : c.exclude = []) (r : FareRecord) :
    excludePass c r = true := by
  simp [excludePass, h]
/-- The filter chain equals a single filter by the conjoined predicate. -/
theorem applyFilter_eq_filter (c : FilterCriteria) (raw : List FareRecord) :
    applyFilter c raw = raw.filter (passes c) := by
  unfold applyFilter
  by_cases h : c.exclude.length ≠ 0
  · rw [if_pos h]
    simp only [List.filter_filter]
    congr 1
    funext r
    simp only [passes]
    cases h1 : destPass c r <;> cases h2 : originPass c r <;> cases h3 : dateTripPass c r <;>
      cases h4 : stopsLayoverPass c r <;> cases h5 : excludePass c r <;> simp [h1, h2, h3, h4, h5]
  · rw [if_neg h]
    have he : c.exclude = [] := by simpa using h
    simp only [List.filter_filter]
    congr 1
    funext r
    simp only [passes, excludePass_of_empty c he r]
    cases h1 : destPass c r <;> cases h2 : originPass c r <;> cases h3 : dateTripPass c r <;>
      cases h4 : stopsLayoverPass c r <;> simp [h1, h2, h3, h4]
theorem mem_firstDedup {κ : Type} [DecidableEq κ] (x : κ) :
    ∀ l : List κ, x ∈ firstDedup l ↔ x ∈ l
  | [] => by simp [firstDedup]
  | a :: l => by
    simp only [firstDedup, List.mem_cons, List.mem_filter, mem_firstDedup x l]
    by_cases hx : x = a <;> simp [hx]
theorem nodup_firstDedup {κ : Type} [DecidableEq κ] :
    ∀ l : List κ, (firstDedup l).Nodup
  | [] => by simp [firstDedup]
  | a :: l => by
    simp only [firstDedup]
    refine List.nodup_cons.2 ⟨?_, (nodup_firstDedup l).filter _⟩
    simp [List.mem_filter]
theorem groupBy_keys {α κ : Type} [DecidableEq κ] (key : α → κ) (l : List α) :
    (groupBy key l).map Prod.fst = firstDedup (l.map key) := by
  unfold groupBy
  rw [List.map_map]
  exact List.map_id _
theorem groupBy_group_nonempty {α κ : Type} [DecidableEq κ] (key : α → κ) (l : List α)
    (g : κ × List α) (hg : g ∈ groupBy key l) : g.2 ≠ [] := by
  obtain ⟨k, hk, rfl⟩ := List.mem_map.1 hg
  obtain ⟨a, ha, hak⟩ := List.mem_map.1 ((mem_firstDedup k _).1 hk)
  intro hnil
  have hnil' : List.filter (fun a => decide (key a = k)) l = [] := hnil
  have hmem : a ∈ List.filter (fun a => decide (key a = k)) l := by
    simp [List.mem_filter, ha, hak]
  rw [hnil'] at hmem
  simp at hmem
theorem groupBy_group_key {α κ : Type} [DecidableEq κ] (key : α → κ) (l : List α)
    (g : κ × List α) (hg : g ∈ groupBy key l) (a : α) (ha : a ∈ g.2) : key a = g.1 := by
  obtain ⟨k, _, rfl⟩ := List.mem_map.1 hg
  simpa using (List.mem_filter.1 ha).2
theorem sortByKey_perm {α β : Type} [LinearOrder β] (f : α → β) (l : List α) :
    List.Perm (sortByKey f l) l :=
  List.perm_insertionSort _ l
theorem sortByKey_sorted {α β : Type} [LinearOrder β] (f : α → β) (l : List α) :
    (sortByKey f l).Pairwise (fun a b => f a ≤ f b) := by
  have ht : IsTotal α (fun a b => f a ≤ f b) := ⟨fun a b => le_total (f a) (f b)⟩
  have htr : IsTrans α (fun a b => f a ≤ f b) := ⟨fun _ _ _ hab hbc => le_trans hab hbc⟩
  exact List.sorted_insertionSort _ l
theorem head?_sortByKey {α β : Type} [LinearOrder β] (f : α → β) :
    ∀ l : List α, (sortByKey f l).head? = firstMinBy f l
  | [] => rfl
  | a :: l => by
    rw [firstMinBy, ← head?_sortByKey f l]
    show (List.orderedInsert _ a (sortByKey f l)).head? = _
    cases hs : sortByKey f l with
    | nil => simp [minTie]
    | cons b t =>
      by_cases hab : f a ≤ f b <;> simp [List.orderedInsert, minTie, hab]
theorem firstMinBy_mem {α β : Type} [LinearOrder β] (f : α → β) :
    ∀ (l : List α) (a : α), firstMinBy f l = some a → a ∈ l
  | [], a => by simp [firstMinBy]
  | b :: l, a => by
    rw [firstMinBy]
    cases hl : firstMinBy f l with
    | none =>
      intro h
      simp only [minTie, Option.some.injEq] at h
      simp [h]
    | some c =>
      intro h
      simp only [minTie, Option.some.injEq] at h
      by_cases hbc : f b ≤ f c
      · rw [if_pos hbc] at h
        simp [h]
      · rw [if_neg hbc] at h
        subst h
        exact List.mem_cons_of_mem _ (firstMinBy_mem f l _ hl)

theorem applyFilter_no_origin (raw : List FareRecord) (c : FilterCriteria)
    (hA : c.useAMS = false) (hE : c.useEIN = false) : applyFilter c raw = [] := by
  rw [applyFilter_eq_filter]
  apply List.filter_eq_nil_iff.2
  intro r _
  simp [passes, originPass, hA, hE]

/-- C2: with both origin checkboxes (AMS and EIN) deselected, the filter
chain returns the empty list on every dataset — no record passes the origin
predicate and there is no fallback to accepting all origins. -/
theorem both_origins_deselected_empty (raw : List FareRecord) (c : FilterCriteria)
    (hA : c.useAMS = false) (hE : c.useEIN = false) : applyFilter c raw = [] :=
  applyFilter_no_origin raw c hA hE

theorem both_origins_deselected_empty_witness :
    applyFilter noOriginCrit [sampleRec] = [] :=
  both_origins_deselected_empty [sampleRec] noOriginCrit rfl rfl

/-- C5: the average of the empty list of numbers is 0 (not an error value),
and the division branch of `avg` is taken exactly for non-empty input. -/
theorem avg_empty_eq_zero :
    avg [] = 0 ∧ ∀ a : List ℚ, a ≠ [] → avg a = a.foldl (· + ·) 0 / a.length := by
  refine ⟨rfl, ?_⟩
  intro a ha
  rw [avg, if_pos]
  intro h
  exact ha (List.length_eq_zero.mp h)

theorem avg_empty_eq_zero_witness :
    avg [] = 0 ∧ avg [(3 : ℚ), 5] = ([(3 : ℚ), 5].foldl (· + ·) 0) / (([(3 : ℚ), 5].length : ℚ)) :=
  ⟨avg_empty_eq_zero.1, avg_empty_eq_zero.2 [3, 5] (by simp)⟩

/-- C10: on a submission with both origin checkboxes deselected, the calendar
chart is still built for origin "AMS" (and "AMS" is likewise preferred over
"EIN" when both are selected), while the filtered record set of the same
submission — and hence every table or chart derived from it — is empty. -/
theorem calendar_origin_defaults_AMS (raw : List FareRecord) (c : FilterCriteria)
    (hA : c.useAMS = false) (hE : c.useEIN = false) :
    calendarOriginChoice c.useAMS c.useEIN = "AMS" ∧
    calendarOriginChoice true true = "AMS" ∧
    applyFilter c raw = [] := by
  refine ⟨?_, rfl, applyFilter_no_origin raw c hA hE⟩
  rw [hA, hE]
  rfl

theorem calendar_origin_defaults_AMS_witness :
    calendarOriginChoice noOriginCrit.useAMS noOriginCrit.useEIN = "AMS" ∧
    calendarOriginChoice true true = "AMS" ∧
    applyFilter noOriginCrit [sampleRec] = [] :=
  calendar_origin_defaults_AMS [sampleRec] noOriginCrit rfl rfl

/-- C9 counterexample: a non-2xx response whose body still parses as a record
list is stored as the raw dataset — it is not replaced by the empty list, so
the claim that any non-2xx status yields the empty dataset is false. -/
theorem loadData_non2xx_counterexample :
    loadData (FetchOutcome.response 404 (some [sampleRec])) ≠ [] := by
  simp [loadData]

/-- C9 amended: a network error or an unparseable response body is caught and
yields the empty raw dataset, and on the empty dataset every downstream
builder produces empty output; but the HTTP status is never inspected — a
non-2xx response with a parseable body is stored as-is. -/
theorem loadData_failure_soft :
    loadData FetchOutcome.networkError = [] ∧
    (∀ s, loadData (FetchOutcome.response s none) = []) ∧
    (∀ s v, loadData (FetchOutcome.response s (some v)) = v) ∧
    (∀ c, applyFilter c [] = []) ∧
    buildBuyTiming [] = ([], []) ∧
    buildAirlineTable [] = [] ∧
    buildItineraryTable [] = [] := by
  refine ⟨rfl, fun s => rfl, fun s v => rfl, fun c => ?_, rfl, rfl, rfl⟩
  simp [applyFilter]

theorem filter_filter_and {α : Type} (p q : α → Bool) (l : List α) :
    (l.filter p).filter q = l.filter (fun r => p r && q r) := by
  rw [List.filter_filter]
  congr 1
  funext r
  cases p r <;> cases q r <;> rfl

/-- C6: composing two filter passes collapses to a single filter by the
intersection (pointwise conjunction) of the two criteria's per-record
predicates; in particular, refiltering with an equal-or-looser criteria is a
no-op. -/
theorem filter_compose_intersection (S : List FareRecord) (c1 c2 : FilterCriteria) :
    applyFilter c2 (applyFilter c1 S) = S.filter (fun r => passes c1 r && passes c2 r) ∧
    ((∀ r, passes c1 r = true → passes c2 r = true) →
      applyFilter c2 (applyFilter c1 S) = applyFilter c1 S) := by
  constructor
  · rw [applyFilter_eq_filter, applyFilter_eq_filter, filter_filter_and]
  · intro hloose
    rw [applyFilter_eq_filter, applyFilter_eq_filter, filter_filter_and]
    congr 1
    funext r
    cases h1 : passes c1 r
    · rfl
    · rw [hloose r h1]
      rfl

theorem filter_compose_intersection_witness :
    applyFilter mainCrit (applyFilter mainCrit [sampleRec, cheaperRec]) =
      [sampleRec, cheaperRec].filter (fun r => passes mainCrit r && passes mainCrit r) ∧
    applyFilter mainCrit (applyFilter mainCrit [sampleRec, cheaperRec]) =
      applyFilter mainCrit [sampleRec, cheaperRec] :=
  ⟨(filter_compose_intersection [sampleRec, cheaperRec] mainCrit mainCrit).1,
   (filter_compose_intersection [sampleRec, cheaperRec] mainCrit mainCrit).2 (fun _ h => h)⟩

/-- C4: the prior-year series of the calendar chart is included exactly when
the route's prior-year key is present at top level: when absent the datasets
are the single current-year series (no all-null prior series is added), and
when present the prior-year series is the second dataset. -/
theorem calendar_prior_year_presence (all : MonthlyLowest) (origin dest : String) :
    ((((all.lookup (origin ++ "-" ++ dest)).bind (fun ry => ry.lookup prevY)) = none →
       calendarDatasets all origin dest =
         [(origin ++ "-" ++ dest ++ " – " ++ nowY,
           getSeries all (origin ++ "-" ++ dest) nowY)]) ∧
     (∀ yd, ((all.lookup (origin ++ "-" ++ dest)).bind (fun ry => ry.lookup prevY)) = some yd →
       calendarDatasets all origin dest =
         [(origin ++ "-" ++ dest ++ " – " ++ nowY,
           getSeries all (origin ++ "-" ++ dest) nowY),
          (origin ++ "-" ++ dest ++ " – " ++ prevY,
           getSeries all (origin ++ "-" ++ dest) prevY)])) := by
  constructor
  · intro h
    simp only [calendarDatasets, h]
  · intro yd h
    simp only [calendarDatasets, h]

theorem calendar_prior_year_presence_witness :
    calendarDatasets sampleMonthly "AMS" "LIS" =
      [("AMS" ++ "-" ++ "LIS" ++ " – " ++ nowY,
        getSeries sampleMonthly ("AMS" ++ "-" ++ "LIS") nowY)] ∧
    calendarDatasets sampleMonthlyBoth "AMS" "LIS" =
      [("AMS" ++ "-" ++ "LIS" ++ " – " ++ nowY,
        getSeries sampleMonthlyBoth ("AMS" ++ "-" ++ "LIS") nowY),
       ("AMS" ++ "-" ++ "LIS" ++ " – " ++ prevY,
        getSeries sampleMonthlyBoth ("AMS" ++ "-" ++ "LIS") prevY)] :=
  ⟨(calendar_prior_year_presence sampleMonthly "AMS" "LIS").1 (by rfl),
   (calendar_prior_year_presence sampleMonthlyBoth "AMS" "LIS").2 _ (by rfl)⟩

theorem lookup_map_pair {κ β : Type} [BEq κ] [LawfulBEq κ] (F : κ → β) :
    ∀ (ks : List κ) (k : κ), k ∈ ks →
      (ks.map (fun x => (x, F x))).lookup k = some (F k)
  | [], k => by simp
  | x :: t, k => by
    intro hk
    by_cases hkx : k = x
    · subst hkx
      simp [List.lookup]
    · have hne : (k == x) = false := beq_eq_false_iff_ne.mpr hkx
      simp only [List.map_cons, List.lookup, hne]
      apply lookup_map_pair F t k
      rcases List.mem_cons.1 hk with h | h
      · exact absurd h hkx
      · exact h

theorem lookup_groupBy {α κ : Type} [DecidableEq κ] [BEq κ] [LawfulBEq κ]
    (key : α → κ) (l : List α) (k : κ) (hk : k ∈ firstDedup (l.map key)) :
    (groupBy key l).lookup k = some (l.filter (fun a => key a = k)) :=
  lookup_map_pair _ _ k hk

/-- C7: the buy-timing labels are exactly the distinct `days_before_departure`
keys sorted ascending numerically, no absent key is inserted (no gap-filling
to a contiguous range), and the values are the per-label rounded average
prices. -/
theorem buy_timing_series (rows : List FareRecord) :
    ((buildBuyTiming rows).1).Pairwise (· ≤ ·) ∧
    ((buildBuyTiming rows).1).Nodup ∧
    (∀ d : Int, d ∈ (buildBuyTiming rows).1 ↔
      d ∈ rows.map (fun r => r.days_before_departure)) ∧
    (buildBuyTiming rows).2 = ((buildBuyTiming rows).1).map (fun d =>
      jsRound (avg ((rows.filter (fun r => r.days_before_departure = d)).map
        (fun x => x.price_eur)))) := by
  have h1 : (buildBuyTiming rows).1 =
      sortByKey (fun d => d)
        ((groupBy (fun r => r.days_before_departure) rows).map Prod.fst) := rfl
  have hperm : List.Perm ((buildBuyTiming rows).1)
      ((groupBy (fun r => r.days_before_departure) rows).map Prod.fst) := by
    rw [h1]
    exact sortByKey_perm _ _
  have hkeys := groupBy_keys (fun r => r.days_before_departure) rows
  refine ⟨?_, ?_, ?_, ?_⟩
  · rw [h1]
    exact sortByKey_sorted _ _
  · rw [hperm.nodup_iff, hkeys]
    exact nodup_firstDedup _
  · intro d
    rw [hperm.mem_iff, hkeys, mem_firstDedup]
  · have h2 : (buildBuyTiming rows).2 = ((buildBuyTiming rows).1).map (fun d =>
        jsRound (avg ((((groupBy (fun r => r.days_before_departure) rows).lookup d).getD
          []).map (fun x => x.price_eur)))) := rfl
    rw [h2]
    apply List.map_congr_left
    intro d hd
    have hdk : d ∈ firstDedup (rows.map (fun r => r.days_before_departure)) := by
      rw [← hkeys, ← hperm.mem_iff]
      exact hd
    rw [lookup_groupBy _ _ _ hdk]
    rfl

theorem mem_groupBy_eq_filter {α κ : Type} [DecidableEq κ] (key : α → κ) (l : List α)
    (g : κ × List α) (hg : g ∈ groupBy key l) :
    g.2 = l.filter (fun a => key a = g.1) := by
  obtain ⟨k, hk, rfl⟩ := List.mem_map.1 hg
  rfl

theorem best_map_date_general :
    ∀ (L : List (Int × List FareRecord)),
      (∀ g ∈ L, g.2 ≠ []) →
      (∀ g ∈ L, ∀ a ∈ g.2, a.outbound_date = g.1) →
      (L.filterMap (fun g => (sortByKey (fun r => r.price_eur) g.2).head?)).map
        (fun r => r.outbound_date) = L.map Prod.fst
  | [], _, _ => by simp
  | g :: T, h1, h2 => by
    have hne : sortByKey (fun r => r.price_eur) g.2 ≠ [] := by
      intro h
      apply h1 g (List.mem_cons_self g T)
      have hp := sortByKey_perm (fun r => r.price_eur) g.2
      rw [h] at hp
      exact (hp.symm).eq_nil
    cases hs : sortByKey (fun r => r.price_eur) g.2 with
    | nil => exact absurd hs hne
    | cons r t =>
      have hrg : r ∈ g.2 := by
        have hp := sortByKey_perm (fun r => r.price_eur) g.2
        rw [hs] at hp
        exact hp.mem_iff.mp (List.mem_cons_self r t)
      rw [List.filterMap_cons, hs]
      simp only [List.head?_cons]
      rw [List.map_cons, List.map_cons,
        h2 g (List.mem_cons_self g T) r hrg,
        best_map_date_general T (fun g hg => h1 g (List.mem_cons_of_mem _ hg))
          (fun g hg => h2 g (List.mem_cons_of_mem _ hg))]

/-- C3: the itinerary table has exactly one row per distinct outbound date —
no date missing, none duplicated —, the rows are sorted ascending by outbound
date, and each row is the minimum-price record of its date group with ties
broken by first occurrence in input order. -/
theorem itinerary_table_rows (rows : List FareRecord) :
    ((buildItineraryTable rows).map (fun r => r.outbound_date)).Pairwise (· ≤ ·) ∧
    ((buildItineraryTable rows).map (fun r => r.outbound_date)).Nodup ∧
    (∀ d : Int, d ∈ (buildItineraryTable rows).map (fun r => r.outbound_date) ↔
      d ∈ rows.map (fun r => r.outbound_date)) ∧
    (∀ r ∈ buildItineraryTable rows,
      firstMinBy (fun x => x.price_eur)
        (rows.filter (fun x => x.outbound_date = r.outbound_date)) = some r) := by
  have hbest : buildItineraryTable rows = sortByKey (fun r => r.outbound_date)
      ((groupBy (fun r : FareRecord => r.outbound_date) rows).filterMap
        (fun g => (sortByKey (fun r => r.price_eur) g.2).head?)) := rfl
  have hperm : List.Perm (buildItineraryTable rows)
      ((groupBy (fun r : FareRecord => r.outbound_date) rows).filterMap
        (fun g => (sortByKey (fun r => r.price_eur) g.2).head?)) := by
    rw [hbest]
    exact sortByKey_perm _ _
  have hdates : (((groupBy (fun r : FareRecord => r.outbound_date) rows).filterMap
      (fun g => (sortByKey (fun r => r.price_eur) g.2).head?)).map
        (fun r => r.outbound_date)) =
      (groupBy (fun r : FareRecord => r.outbound_date) rows).map Prod.fst :=
    best_map_date_general _ (fun g hg => groupBy_group_nonempty _ _ g hg)
      (fun g hg a ha => groupBy_group_key _ _ g hg a ha)
  have hkeys : (groupBy (fun r : FareRecord => r.outbound_date) rows).map Prod.fst =
      firstDedup (rows.map (fun r => r.outbound_date)) := groupBy_keys _ _
  refine ⟨?_, ?_, ?_, ?_⟩
  · rw [hbest, List.pairwise_map]
    exact sortByKey_sorted _ _
  · rw [(hperm.map (fun r => r.outbound_date)).nodup_iff, hdates, hkeys]
    exact nodup_firstDedup _
  · intro d
    rw [(hperm.map (fun r => r.outbound_date)).mem_iff, hdates, hkeys, mem_firstDedup]
  · intro r hr
    have hrbest := hperm.mem_iff.mp hr
    obtain ⟨g, hg, hghead⟩ := List.mem_filterMap.1 hrbest
    have hmin : firstMinBy (fun x => x.price_eur) g.2 = some r := by
      rw [← head?_sortByKey]
      exact hghead
    have hrg : r ∈ g.2 := firstMinBy_mem _ _ _ hmin
    have hdate : r.outbound_date = g.1 := groupBy_group_key _ _ g hg r hrg
    have hfil : rows.filter (fun x => x.outbound_date = r.outbound_date) = g.2 := by
      rw [hdate]
      exact (mem_groupBy_eq_filter _ _ g hg).symm
    rw [hfil]
    exact hmin

theorem itinerary_table_rows_witness :
    firstMinBy (fun x => x.price_eur)
      ([sampleRec, cheaperRec].filter
        (fun x => x.outbound_date = cheaperRec.outbound_date)) = some cheaperRec :=
  (itinerary_table_rows [sampleRec, cheaperRec]).2.2.2 cheaperRec (by decide)

/-- C8 counterexample: with group averages 12/5 (2.4) and 8/5 (1.6), both
rounding to 2, the stable sort keeps the first-seen group first: the output
lists the 2.4-average airline before the 1.6-average airline, so the rows are
not sorted ascending by the group's (exact) average price. -/
theorem groupBy_airline_eval :
    groupBy airlineKey [recAvgHigh, recAvgLow] =
      [("Beta Air", [recAvgHigh]), ("Alpha Air", [recAvgLow])] := by
  norm_num [groupBy, firstDedup, airlineKey, recAvgHigh, recAvgLow]
  simp +decide

theorem rowHigh_eval :
    ({ airline := "Beta Air"
       price := jsRound (avg [recAvgHigh.price_eur])
       stops := avg [(recAvgHigh.stops : ℚ)]
       layover := avg [recAvgHigh.max_layover_hours] } : AirlineRow) =
      ⟨"Beta Air", 2, 0, 0⟩ := by
  norm_num [avg, jsRound, recAvgHigh]

theorem rowLow_eval :
    ({ airline := "Alpha Air"
       price := jsRound (avg [recAvgLow.price_eur])
       stops := avg [(recAvgLow.stops : ℚ)]
       layover := avg [recAvgLow.max_layover_hours] } : AirlineRow) =
      ⟨"Alpha Air", 2, 0, 0⟩ := by
  norm_num [avg, jsRound, recAvgLow]

theorem airlineTable_eval :
    buildAirlineTable [recAvgHigh, recAvgLow] =
      [⟨"Beta Air", 2, 0, 0⟩, ⟨"Alpha Air", 2, 0, 0⟩] := by
  show sortByKey (fun it => it.price)
      ((groupBy airlineKey [recAvgHigh, recAvgLow]).map (fun g =>
        { airline := g.1
          price := jsRound (avg (g.2.map (fun x => x.price_eur)))
          stops := avg (g.2.map (fun x => (x.stops : ℚ)))
          layover := avg (g.2.map (fun x => x.max_layover_hours)) : AirlineRow })) = _
  rw [groupBy_airline_eval]
  simp only [List.map_cons, List.map_nil]
  rw [rowHigh_eval, rowLow_eval]
  simp [sortByKey, List.insertionSort, List.orderedInsert]

theorem airline_table_not_sorted_by_avg :
    ¬ ((buildAirlineTable [recAvgHigh, recAvgLow]).Pairwise (fun a b =>
      avg (([recAvgHigh, recAvgLow].filter
        (fun r => airlineKey r = a.airline)).map (fun x => x.price_eur)) ≤
      avg (([recAvgHigh, recAvgLow].filter
        (fun r => airlineKey r = b.airline)).map (fun x => x.price_eur)))) := by
  intro hpair
  rw [airlineTable_eval] at hpair
  have hle := (List.pairwise_cons.1 hpair).1 _ (List.mem_cons_self _ _)
  simp only [airlineKey, recAvgHigh, recAvgLow] at hle
  simp +decide at hle
  norm_num [avg] at hle

/-- C8 amended: the airline table has exactly one row per distinct airline
key — records with a missing airline fall into the "undefined" bucket and an
empty-string airline is its own bucket —, each row's price is the rounded
group average, and the rows are sorted ascending by this rounded average
price (the code sorts by the rounded `price` field, not by the exact
average; ties keep first-occurrence group order). -/
theorem airline_table_rows (rows : List FareRecord) :
    List.Perm ((buildAirlineTable rows).map (fun it => it.airline))
      (firstDedup (rows.map airlineKey)) ∧
    ((buildAirlineTable rows).map (fun it => it.airline)).Nodup ∧
    (∀ it ∈ buildAirlineTable rows,
      it.price = jsRound (avg ((rows.filter (fun r => airlineKey r = it.airline)).map
        (fun x => x.price_eur)))) ∧
    (buildAirlineTable rows).Pairwise (fun a b => a.price ≤ b.price) := by
  have hitems : buildAirlineTable rows = sortByKey (fun it => it.price)
      ((groupBy airlineKey rows).map (fun g =>
        { airline := g.1
          price := jsRound (avg (g.2.map (fun x => x.price_eur)))
          stops := avg (g.2.map (fun x => (x.stops : ℚ)))
          layover := avg (g.2.map (fun x => x.max_layover_hours)) : AirlineRow })) := rfl
  have hperm : List.Perm (buildAirlineTable rows)
      ((groupBy airlineKey rows).map (fun g =>
        { airline := g.1
          price := jsRound (avg (g.2.map (fun x => x.price_eur)))
          stops := avg (g.2.map (fun x => (x.stops : ℚ)))
          layover := avg (g.2.map (fun x => x.max_layover_hours)) : AirlineRow })) := by
    rw [hitems]
    exact sortByKey_perm _ _
  have hairlines : (((groupBy airlineKey rows).map (fun g =>
      { airline := g.1
        price := jsRound (avg (g.2.map (fun x => x.price_eur)))
        stops := avg (g.2.map (fun x => (x.stops : ℚ)))
        layover := avg (g.2.map (fun x => x.max_layover_hours)) : AirlineRow })).map
          (fun it => it.airline)) = (groupBy airlineKey rows).map Prod.fst := by
    rw [List.map_map]
    rfl
  refine ⟨?_, ?_, ?_, ?_⟩
  · have := (hperm.map (fun it => it.airline))
    rw [hairlines, groupBy_keys] at this
    exact this
  · rw [(hperm.map (fun it => it.airline)).nodup_iff, hairlines, groupBy_keys]
    exact nodup_firstDedup _
  · intro it hit
    have hmem := hperm.mem_iff.mp hit
    obtain ⟨g, hg, rfl⟩ := List.mem_map.1 hmem
    show jsRound (avg (g.2.map (fun x => x.price_eur))) = _
    rw [mem_groupBy_eq_filter _ _ g hg]
  · rw [hitems]
    exact sortByKey_sorted _ _

theorem airline_table_rows_witness :
    (⟨"Beta Air", 2, 0, 0⟩ : AirlineRow).price =
      jsRound (avg (([recAvgHigh, recAvgLow].filter
        (fun r => airlineKey r = (⟨"Beta Air", 2, 0, 0⟩ : AirlineRow).airline)).map
          (fun x => x.price_eur))) :=
  (airline_table_rows [recAvgHigh, recAvgLow]).2.2.1 ⟨"Beta Air", 2, 0, 0⟩ (by
    rw [airlineTable_eval]
    simp)

theorem lookup_mem {κ β : Type} [BEq κ] [LawfulBEq κ] :
    ∀ (l : List (κ × β)) (k : κ) (v : β), l.lookup k = some v → (k, v) ∈ l
  | [], k, v => by simp
  | (a, b) :: t, k, v => by
    by_cases hka : k = a
    · subst hka
      intro h
      have hkk : (k == k) = true := beq_self_eq_true k
      simp only [List.lookup, hkk, Option.some.injEq] at h
      subst h
      exact List.mem_cons_self _ _
    · have hne : (k == a) = false := beq_eq_false_iff_ne.mpr hka
      simp only [List.lookup, hne]
      intro h
      exact List.mem_cons_of_mem _ (lookup_mem t k v h)

theorem monthLookup_length (all : MonthlyLowest) (key y : String) (i : Nat)
    (hv : validMonthly all) (wb : WeekBuckets) (h : monthLookup all key y i = some wb) :
    wb.length = 4 := by
  unfold monthLookup at h
  rcases Option.bind_eq_some.mp h with ⟨yd, h1, h2⟩
  rcases Option.bind_eq_some.mp h1 with ⟨ry, hkey, hy⟩
  exact hv (key, ry) (lookup_mem _ _ _ hkey) (y, yd) (lookup_mem _ _ _ hy)
    (mm i, wb) (lookup_mem _ _ _ h2)

theorem flatten_length_four {β : Type} :
    ∀ L : List (List β), (∀ x ∈ L, x.length = 4) → L.flatten.length = 4 * L.length
  | [], _ => rfl
  | x :: T, h => by
    simp only [List.flatten_cons, List.length_append, List.length_cons,
      flatten_length_four T (fun y hy => h y (List.mem_cons_of_mem _ hy)),
      h x (List.mem_cons_self x T)]
    ring

theorem flatten_segment {β : Type} :
    ∀ (L : List (List β)) (i : Nat), (∀ x ∈ L, x.length = 4) → i < L.length →
      (L.flatten.drop (4 * i)).take 4 = L.getD i []
  | [], i, _, hi => by simp at hi
  | x :: T, 0, h, _ => by
    have hx := h x (List.mem_cons_self x T)
    simp only [Nat.mul_zero, List.drop_zero, List.flatten_cons, List.getD_cons_zero]
    rw [← hx, List.take_left]
  | x :: T, i + 1, h, hi => by
    have hx := h x (List.mem_cons_self x T)
    simp only [List.flatten_cons, List.getD_cons_succ]
    rw [show 4 * (i + 1) = x.length + 4 * i by rw [hx]; ring, List.drop_append]
    exact flatten_segment T i (fun y hy => h y (List.mem_cons_of_mem _ hy))
      (by simpa using hi)

/-- C1: the monthly calendar series builder returns exactly 48 labels in the
fixed Jan-W1..Dec-W4 order and — for every MonthlyLowest obeying the
4-buckets-per-month data-model invariant — exactly 48 values for every route
key and year, with each absent month occupying its 4 positions with the
all-null placeholder. -/
theorem calendar_series_lengths (all : MonthlyLowest) (key y : String)
    (hv : validMonthly all) :
    (calLabels.length = 48 ∧ calLabels =
  [   "Jan‑W1", "Jan‑W2", "Jan‑W3", "Jan‑W4",
   "Feb‑W1", "Feb‑W2", "Feb‑W3", "Feb‑W4",
   "Mrt‑W1", "Mrt‑W2", "Mrt‑W3", "Mrt‑W4",
   "Apr‑W1", "Apr‑W2", "Apr‑W3", "Apr‑W4",
   "Mei‑W1", "Mei‑W2", "Mei‑W3", "Mei‑W4",
   "Jun‑W1", "Jun‑W2", "Jun‑W3", "Jun‑W4",
   "Jul‑W1", "Jul‑W2", "Jul‑W3", "Jul‑W4",
   "Aug‑W1", "Aug‑W2", "Aug‑W3", "Aug‑W4",
   "Sep‑W1", "Sep‑W2", "Sep‑W3", "Sep‑W4",
   "Okt‑W1", "Okt‑W2", "Okt‑W3", "Okt‑W4",
   "Nov‑W1", "Nov‑W2", "Nov‑W3", "Nov‑W4",
   "Dec‑W1", "Dec‑W2", "Dec‑W3", "Dec‑W4"]) ∧
    (getSeries all key y).length = 48 ∧
    (∀ i < 12, monthLookup all key y i = none →
      ((getSeries all key y).drop (4 * i)).take 4 = [none, none, none, none]) := by
  have hflat : getSeries all key y =
      ((List.range 12).map (fun i => (monthLookup all key y i).getD
        [none, none, none, none])).flatten := by
    unfold getSeries
    exact List.flatMap_def _ _
  have hlen4 : ∀ x ∈ (List.range 12).map (fun i => (monthLookup all key y i).getD
      [none, none, none, none]), x.length = 4 := by
    intro x hx
    obtain ⟨i, _, rfl⟩ := List.mem_map.1 hx
    cases hm : monthLookup all key y i with
    | none => simp [hm]
    | some wb => simp [hm, monthLookup_length all key y i hv wb hm]
  refine ⟨⟨rfl, rfl⟩, ?_, ?_⟩
  · rw [hflat, flatten_length_four _ hlen4]
    simp
  · intro i hi hmnone
    rw [hflat, flatten_segment _ i hlen4 (by simpa using hi),
      List.getD_eq_getElem?_getD, List.getElem?_map, List.getElem?_range hi]
    simp [hmnone]

theorem calendar_series_lengths_witness :
    validMonthly sampleMonthly ∧
    ((calLabels.length = 48 ∧ calLabels =
  [   "Jan‑W1", "Jan‑W2", "Jan‑W3", "Jan‑W4",
   "Feb‑W1", "Feb‑W2", "Feb‑W3", "Feb‑W4",
   "Mrt‑W1", "Mrt‑W2", "Mrt‑W3", "Mrt‑W4",
   "Apr‑W1", "Apr‑W2", "Apr‑W3", "Apr‑W4",
   "Mei‑W1", "Mei‑W2", "Mei‑W3", "Mei‑W4",
   "Jun‑W1", "Jun‑W2", "Jun‑W3", "Jun‑W4",
   "Jul‑W1", "Jul‑W2", "Jul‑W3", "Jul‑W4",
   "Aug‑W1", "Aug‑W2", "Aug‑W3", "Aug‑W4",
   "Sep‑W1", "Sep‑W2", "Sep‑W3", "Sep‑W4",
   "Okt‑W1", "Okt‑W2", "Okt‑W3", "Okt‑W4",
   "Nov‑W1", "Nov‑W2", "Nov‑W3", "Nov‑W4",
   "Dec‑W1", "Dec‑W2", "Dec‑W3", "Dec‑W4"]) ∧
    (getSeries sampleMonthly "AMS-LIS" "2026").length = 48 ∧
    (∀ i < 12, monthLookup sampleMonthly "AMS-LIS" "2026" i = none →
      ((getSeries sampleMonthly "AMS-LIS" "2026").drop (4 * i)).take 4 =
        [none, none, none, none])) :=
  ⟨by decide, calendar_series_lengths sampleMonthly "AMS-LIS" "2026" (by decide)⟩

theorem buy_timing_series_witness :
    ((30 : Int) ∈ (buildBuyTiming [sampleRec, cheaperRec]).1 ↔
      (30 : Int) ∈ [sampleRec, cheaperRec].map (fun r => r.days_before_departure)) ∧
    (buildBuyTiming [sampleRec, cheaperRec]).2 =
      ((buildBuyTiming [sampleRec, cheaperRec]).1).map (fun d =>
        jsRound (avg (([sampleRec, cheaperRec].filter
          (fun r => r.days_before_departure = d)).map (fun x => x.price_eur)))) :=
  ⟨(buy_timing_series [sampleRec, cheaperRec]).2.2.1 30,
   (buy_timing_series [sampleRec, cheaperRec]).2.2.2⟩
